import Mathlib

/-
Verification of the avail-light p2p network construction (src/network/p2p.rs)
and of parts of the v2 HTTP API module (src/api/v2/mod.rs), as a shallow
embedding in Lean 4.  Machine integers are modelled as Nat with an explicit
modulus where overflow matters.  External library primitives (libp2p identity
keys, the multihash digest, the tokio mpsc channel, the warp filters) are
modelled by explicit deterministic Lean functions, each documented at its
definition.
-/

namespace AvailLight

/-- Number of values of the 64-bit usize type; machine arithmetic on usize is
arithmetic modulo this constant. -/
def usizeSize : Nat := 2 ^ 64

/-- Model of the std NonZeroUsize type: a natural number together with a proof
that it is positive. -/
abbrev NonZeroUsize := { n : Nat // 0 < n }

/-- Model of usize::from on a NonZeroUsize: the underlying number. -/
def usizeFrom (n : NonZeroUsize) : Nat := n.val

/-- Model of an ed25519 keypair from the external libp2p identity library.  The
keypair is fully determined by its 32 secret bytes; the public key and the peer
identifier are deterministic functions of them, modelled below. -/
structure Keypair where
  secret : List Nat
deriving DecidableEq, Repr

/-- Model of an ed25519 public key from the external libp2p identity library. -/
structure PublicKey where
  bytes : List Nat
deriving DecidableEq, Repr

/-- Model of the external ed25519 public-key derivation (library code, not part
of this repository): an arbitrary but fixed deterministic function of the
secret bytes, producing 32 bytes.  The claims verified here depend only on the
derivation being a function of the secret. -/
def ed25519PublicBytes (secret : List Nat) : List Nat :=
  (List.range 32).map (fun i => secret.foldl (fun a b => (a * 131 + b + 7) % 256) (i + 1))

/-- Model of Keypair::public from the external identity library. -/
def Keypair.public (k : Keypair) : PublicKey :=
  PublicKey.mk (ed25519PublicBytes k.secret)

/-- Model of a libp2p PeerId: derived from a public key. -/
structure PeerId where
  bytes : List Nat
deriving DecidableEq, Repr

/-- Model of PeerId::from(public_key). -/
def PeerId.ofPublic (pk : PublicKey) : PeerId := PeerId.mk pk.bytes

/-- Model of the textual base58 rendering of a peer id (library code): an
arbitrary but fixed deterministic and injective rendering of the bytes. -/
def PeerId.toText (p : PeerId) : String :=
  p.bytes.foldl (fun s b => s ++ "." ++ Nat.repr b) "Qm"

/-- Model of libp2p identity::Keypair::ed25519_from_bytes (library code): it
succeeds exactly when given 32 bytes, and the resulting keypair is determined
by those bytes. -/
def ed25519_from_bytes (bytes : List Nat) : Except String Keypair :=
  if bytes.length = 32 then Except.ok (Keypair.mk bytes) else Except.error "decoding error"

/-- Model of the external multihash Sha3_256 digest (library code, not part of
this repository): an arbitrary but fixed deterministic function of the input
bytes producing a 32-byte digest.  The claims verified here depend only on the
digest being a deterministic function producing 32 bytes. -/
def sha3_256_digest (input : List Nat) : List Nat :=
  (List.range 32).map (fun i => input.foldl (fun a b => (a * 257 + b + 1) % 256) i)

/-- Model of String::as_bytes: the byte content of the string, modelled at the
level of character codes. -/
def strBytes (s : String) : List Nat := s.data.map Char.toNat

/-- Value of a single hex character, as decoded by the external hex crate:
digits, lowercase and uppercase hex letters are valid, everything else is
rejected. -/
def hexCharValue (c : Char) : Option Nat :=
  let n := c.toNat
  if 48 ≤ n ∧ n ≤ 57 then some (n - 48)
  else if 97 ≤ n ∧ n ≤ 102 then some (n - 97 + 10)
  else if 65 ≤ n ∧ n ≤ 70 then some (n - 65 + 10)
  else none

/-- Decode a list of hex characters two at a time into bytes; fails on an odd
number of characters or on any invalid character. -/
def hexDecodePairs : List Char → Option (List Nat)
  | [] => some []
  | [_] => none
  | hi :: lo :: rest =>
    match hexCharValue hi, hexCharValue lo, hexDecodePairs rest with
    | some h, some l, some tail => some ((h * 16 + l) :: tail)
    | _, _, _ => none

/-- Model of hex::decode_to_slice into a 32-byte buffer, as called by keypair:
it fails unless the input has exactly 64 characters (twice the buffer length)
that all decode as hex, and otherwise yields the 32 decoded bytes. -/
def decode_to_slice_32 (key : String) : Option (List Nat) :=
  if key.length = 64 then hexDecodePairs key.data else none

/-- The SecretKey configuration enum, reconstructed from its use in keypair in
p2p.rs (the types module is not among the sources): either a seed phrase or an
imported raw hex key. -/
inductive SecretKey where
  | Seed (seed : String)
  | Key (key : String)
deriving DecidableEq, Repr

/-- The kademlia section of LibP2PConfig, reconstructed from its use sites in
init in p2p.rs (the types module is not among the sources).  Durations are
modelled as Nat in an unspecified unit. -/
structure KademliaCfg where
  max_kad_record_number : Nat
  max_kad_record_size : Nat
  record_replication_factor : NonZeroUsize
  max_kad_provided_keys : Nat
  publication_interval : Option Nat
  record_replication_interval : Option Nat
  connection_idle_timeout : Nat
  query_timeout : Nat
  query_parallelism : NonZeroUsize
  caching_max_peers : Nat
  disjoint_query_paths : Bool
deriving DecidableEq, Repr

/-- The identify section of LibP2PConfig, reconstructed from its use sites in
init in p2p.rs. -/
structure IdentifyCfg where
  protocol_version : String
  agent_version : String
deriving DecidableEq, Repr

/-- The autonat section of LibP2PConfig, reconstructed from its use sites in
init in p2p.rs. -/
structure AutonatCfg where
  retry_interval : Nat
  refresh_interval : Nat
  boot_delay : Nat
  throttle_server_period : Nat
  only_global_ips : Bool
deriving DecidableEq, Repr

/-- LibP2PConfig, reconstructed from its use sites in p2p.rs (the types module
is not among the sources). -/
structure LibP2PConfig where
  kademlia : KademliaCfg
  identify : IdentifyCfg
  autonat : AutonatCfg
  relays : List String
  bootstrap_interval : Nat
  secret_key : Option SecretKey
deriving DecidableEq, Repr

/-- MemoryStoreConfig from the kad_mem_store module: the four caps of the
bounded in-memory DHT store. -/
structure MemoryStoreConfig where
  max_records : Nat
  max_value_bytes : Nat
  max_providers_per_key : Nat
  max_provided_keys : Nat
deriving DecidableEq, Repr

/-- The bounded in-memory DHT store, as constructed by
MemoryStore::with_config: the local peer id together with its config. -/
structure MemoryStore where
  local_peer_id : PeerId
  config : MemoryStoreConfig
deriving DecidableEq, Repr

/-- MemoryStore::with_config from the kad_mem_store module. -/
def MemoryStore.with_config (p : PeerId) (c : MemoryStoreConfig) : MemoryStore :=
  MemoryStore.mk p c

/-- Modelled from the spec: the value-size check of the bounded store
implemented in the kad_mem_store module, which is not among the sources.  The
spec states that the store rejects a record whose value exceeds
max_value_bytes, so a value of len bytes falls within the value-size limit
exactly when len does not exceed the cap. -/
def valueSizeOk (c : MemoryStoreConfig) (len : Nat) : Bool :=
  len ≤ c.max_value_bytes

/-- The libp2p kad Mode enum: client mode never answers routing queries, server
mode participates fully. -/
inductive Mode where
  | Client
  | Server
deriving DecidableEq, Repr

/-- The libp2p KademliaCaching enum. -/
inductive KademliaCaching where
  | Disabled
  | Enabled (max_peers : Nat)
deriving DecidableEq, Repr

/-- The libp2p KademliaStoreInserts enum: Unfiltered accepts all records,
FilterBoth filters both records and provider records. -/
inductive KademliaStoreInserts where
  | Unfiltered
  | FilterBoth
deriving DecidableEq, Repr

/-- Model of the libp2p KademliaConfig, restricted to the fields touched by
init in p2p.rs. -/
structure KademliaConfig where
  publication_interval : Option Nat
  replication_interval : Option Nat
  replication_factor : NonZeroUsize
  connection_idle_timeout : Nat
  query_timeout : Nat
  parallelism : NonZeroUsize
  caching : KademliaCaching
  disjoint_query_paths : Bool
  record_filtering : KademliaStoreInserts
deriving DecidableEq, Repr

/-- Model of KademliaConfig::default from libp2p.  The claims do not depend on
the default values since init overwrites every relevant field. -/
def KademliaConfig.default : KademliaConfig where
  publication_interval := some 86400
  replication_interval := some 3600
  replication_factor := ⟨20, by decide⟩
  connection_idle_timeout := 10
  query_timeout := 60
  parallelism := ⟨3, by decide⟩
  caching := KademliaCaching.Enabled 1
  disjoint_query_paths := false
  record_filtering := KademliaStoreInserts.Unfiltered

/-- Setter from libp2p KademliaConfig. -/
def KademliaConfig.set_publication_interval (c : KademliaConfig) (i : Option Nat) : KademliaConfig :=
  { c with publication_interval := i }

/-- Setter from libp2p KademliaConfig. -/
def KademliaConfig.set_replication_interval (c : KademliaConfig) (i : Option Nat) : KademliaConfig :=
  { c with replication_interval := i }

/-- Setter from libp2p KademliaConfig. -/
def KademliaConfig.set_replication_factor (c : KademliaConfig) (f : NonZeroUsize) : KademliaConfig :=
  { c with replication_factor := f }

/-- Setter from libp2p KademliaConfig. -/
def KademliaConfig.set_connection_idle_timeout (c : KademliaConfig) (t : Nat) : KademliaConfig :=
  { c with connection_idle_timeout := t }

/-- Setter from libp2p KademliaConfig. -/
def KademliaConfig.set_query_timeout (c : KademliaConfig) (t : Nat) : KademliaConfig :=
  { c with query_timeout := t }

/-- Setter from libp2p KademliaConfig. -/
def KademliaConfig.set_parallelism (c : KademliaConfig) (p : NonZeroUsize) : KademliaConfig :=
  { c with parallelism := p }

/-- Setter from libp2p KademliaConfig. -/
def KademliaConfig.set_caching (c : KademliaConfig) (k : KademliaCaching) : KademliaConfig :=
  { c with caching := k }

/-- Setter from libp2p KademliaConfig; named disjoint_query_paths in the
library, renamed here to avoid clashing with the field projection. -/
def KademliaConfig.set_disjoint_query_paths (c : KademliaConfig) (b : Bool) : KademliaConfig :=
  { c with disjoint_query_paths := b }

/-- Setter from libp2p KademliaConfig. -/
def KademliaConfig.set_record_filtering (c : KademliaConfig) (f : KademliaStoreInserts) : KademliaConfig :=
  { c with record_filtering := f }

/-- Model of the libp2p Kademlia behaviour: the local peer id, the backing
store, the config, and the routing mode.  A newly built behaviour starts in
client mode with automatic mode selection enabled, which is the library
default. -/
structure Kademlia where
  local_peer_id : PeerId
  store : MemoryStore
  config : KademliaConfig
  mode : Mode
  auto_mode : Bool
deriving DecidableEq, Repr

/-- Model of Kademlia::with_config from libp2p: the behaviour starts in client
mode with automatic mode selection. -/
def Kademlia.with_config (p : PeerId) (s : MemoryStore) (c : KademliaConfig) : Kademlia :=
  Kademlia.mk p s c Mode.Client true

/-- Model of Kademlia::set_mode from libp2p: some mode forces that mode and
disables automatic selection; none re-enables automatic selection. -/
def Kademlia.set_mode (k : Kademlia) (m : Option Mode) : Kademlia :=
  match m with
  | some mo => { k with mode := mo, auto_mode := false }
  | none => { k with auto_mode := true }

/-- Model of the identify protocol config built by identify::Config::new and
with_agent_version. -/
structure IdentifyConfig where
  protocol_version : String
  public_key : PublicKey
  agent_version : Option String
deriving DecidableEq, Repr

/-- Model of identify::Config::new from libp2p. -/
def IdentifyConfig.new (pv : String) (pk : PublicKey) : IdentifyConfig :=
  IdentifyConfig.mk pv pk none

/-- Model of identify::Config::with_agent_version from libp2p. -/
def IdentifyConfig.with_agent_version (c : IdentifyConfig) (av : String) : IdentifyConfig :=
  { c with agent_version := some av }

/-- Model of the autonat::Config built by init, restricted to the fields init
sets from the configuration. -/
structure AutonatConfig where
  retry_interval : Nat
  refresh_interval : Nat
  boot_delay : Nat
  throttle_server_period : Nat
  only_global_ips : Bool
deriving DecidableEq, Repr

/-- The Behaviour aggregate from p2p.rs: the claims concern the kademlia
sub-behaviour; the remaining sub-behaviours are modelled by the configuration
they are built from (or by Unit where they take none). -/
structure Behaviour where
  kademlia : Kademlia
  identify : IdentifyConfig
  ping : Unit
  mdns : Unit
  auto_nat : AutonatConfig
  relay_client : Unit
  dcutr : PeerId
deriving DecidableEq, Repr

/-- Model of the libp2p swarm built by SwarmBuilder::with_tokio_executor:
the behaviour together with the local peer id (the transport is network I/O
and is not modelled). -/
structure Swarm where
  behaviour : Behaviour
  local_peer_id : PeerId
deriving DecidableEq, Repr

/-- Model of SwarmBuilder::with_tokio_executor(...).build(). -/
def Swarm.build (b : Behaviour) (p : PeerId) : Swarm := Swarm.mk b p

/-- Model of a tokio mpsc bounded channel: an identifier together with its
capacity. -/
structure BoundedChannel where
  chanId : Nat
  capacity : Nat
deriving DecidableEq, Repr

/-- The sender half of a bounded channel. -/
structure CommandSender where
  chan : BoundedChannel
deriving DecidableEq, Repr

/-- The receiver half of a bounded channel. -/
structure CommandReceiver where
  chan : BoundedChannel
deriving DecidableEq, Repr

/-- Model of tokio mpsc::channel(capacity): one fresh bounded channel whose
sender half and receiver half both reference it. -/
def mpsc_channel (cap : Nat) : CommandSender × CommandReceiver :=
  (CommandSender.mk (BoundedChannel.mk 0 cap), CommandReceiver.mk (BoundedChannel.mk 0 cap))

/-- Model of the send readiness of a tokio bounded channel: a send onto queue
completes only when the queue holds fewer items than the channel capacity;
otherwise the result is none and the sender must wait. -/
def BoundedChannel.trySend {α : Type} (ch : BoundedChannel) (queue : List α) (c : α) : Option (List α) :=
  if queue.length < ch.capacity then some (queue ++ [c]) else none

/-- The Client facade, reconstructed from the Client::new call in init in
p2p.rs (the client module is not among the sources): it holds the command
sender and the three sampling parameters. -/
structure Client where
  command_sender : CommandSender
  dht_parallelization_limit : Nat
  ttl : Nat
  put_batch_size : Nat
deriving DecidableEq, Repr

/-- The Event Loop actor, reconstructed from the EventLoop::new call in init in
p2p.rs (the event_loop module is not among the sources): it holds the swarm,
the command receiver, the configured relays, the bootstrap interval and the
fat-client flag. -/
structure EventLoop where
  swarm : Swarm
  command_receiver : CommandReceiver
  relays : List String
  bootstrap_interval : Nat
  is_fat_client : Bool
deriving DecidableEq, Repr

/-- The DHTPutSuccess enum from p2p.rs: used to signal back and count
successful DHT put operations, for single or batch operations. -/
inductive DHTPutSuccess where
  | Batch (n : Nat)
  | Single
deriving DecidableEq, Repr

/-- The init function from p2p.rs: builds the memory store, the kademlia
config, the behaviour aggregate (forcing server mode exactly for fat clients),
the swarm, the command channel, and the connected Client and EventLoop pair.
The transport construction is network I/O and is not modelled; its fallibility
is the only effect dropped. -/
def init (cfg : LibP2PConfig) (dht_parallelization_limit : Nat) (ttl : Nat)
    (put_batch_size : Nat) (is_fat_client : Bool) (id_keys : Keypair) :
    Client × EventLoop :=
  let local_peer_id := PeerId.ofPublic id_keys.public
  let kad_store := MemoryStore.with_config local_peer_id
    { max_records := cfg.kademlia.max_kad_record_number
      max_value_bytes := (cfg.kademlia.max_kad_record_size + 1) % usizeSize
      max_providers_per_key := usizeFrom cfg.kademlia.record_replication_factor
      max_provided_keys := cfg.kademlia.max_kad_provided_keys }
  let kad_cfg :=
    ((((((((KademliaConfig.default.set_publication_interval
      cfg.kademlia.publication_interval).set_replication_interval
      cfg.kademlia.record_replication_interval).set_replication_factor
      cfg.kademlia.record_replication_factor).set_connection_idle_timeout
      cfg.kademlia.connection_idle_timeout).set_query_timeout
      cfg.kademlia.query_timeout).set_parallelism
      cfg.kademlia.query_parallelism).set_caching
      (KademliaCaching.Enabled cfg.kademlia.caching_max_peers)).set_disjoint_query_paths
      cfg.kademlia.disjoint_query_paths).set_record_filtering
      KademliaStoreInserts.FilterBoth
  let identify_cfg :=
    (IdentifyConfig.new cfg.identify.protocol_version id_keys.public).with_agent_version
      cfg.identify.agent_version
  let autonat_cfg : AutonatConfig :=
    { retry_interval := cfg.autonat.retry_interval
      refresh_interval := cfg.autonat.refresh_interval
      boot_delay := cfg.autonat.boot_delay
      throttle_server_period := cfg.autonat.throttle_server_period
      only_global_ips := cfg.autonat.only_global_ips }
  let behaviour : Behaviour :=
    { ping := ()
      identify := identify_cfg
      relay_client := ()
      dcutr := local_peer_id
      kademlia := Kademlia.with_config local_peer_id kad_store kad_cfg
      auto_nat := autonat_cfg
      mdns := () }
  let behaviour :=
    if is_fat_client then
      { behaviour with kademlia := behaviour.kademlia.set_mode (some Mode.Server) }
    else behaviour
  let swarm := Swarm.build behaviour local_peer_id
  let chans := mpsc_channel 10000
  (Client.mk chans.1 dht_parallelization_limit ttl put_batch_size,
   EventLoop.mk swarm chans.2 cfg.relays cfg.bootstrap_interval is_fat_client)

/-- The keypair function from p2p.rs: derives the identity keypair from the
configured secret (seed phrase, imported hex key, or fresh random keypair when
neither is given) and the textual peer id.  The random generation of the last
branch is modelled by an explicit randomness argument, used only there. -/
def keypair (cfg : LibP2PConfig) (rand : Keypair) : Except String (Keypair × String) :=
  let kpE : Except String Keypair :=
    match cfg.secret_key with
    | some (SecretKey.Seed seed) =>
      let seed_digest := sha3_256_digest (strBytes seed)
      match ed25519_from_bytes seed_digest with
      | Except.ok kp => Except.ok kp
      | Except.error _ => Except.error "error generating secret key from seed"
    | some (SecretKey.Key key) =>
      match decode_to_slice_32 key with
      | none => Except.error "error decoding secret key from config"
      | some decoded_key =>
        match ed25519_from_bytes decoded_key with
        | Except.ok kp => Except.ok kp
        | Except.error _ => Except.error "error importing secret key"
    | none => Except.ok rand
  match kpE with
  | Except.error e => Except.error e
  | Except.ok kp => Except.ok (kp, (PeerId.ofPublic kp.public).toText)

/-- Modelled from the spec: the batch-put success aggregation performed by the
client and event-loop modules, which are not among the sources.  A batch put
reports DHTPutSuccess.Batch n where n is the number of records whose put was
confirmed, alongside the per-record detail. -/
def batchPutReport (outcomes : List Bool) : DHTPutSuccess :=
  DHTPutSuccess.Batch (outcomes.countP (fun b => b))

/-- Modelled from the spec: a single-record put reports DHTPutSuccess.Single
on confirmation. -/
def singlePutReport : DHTPutSuccess := DHTPutSuccess.Single

/-- HTTP methods relevant to the v2 routes. -/
inductive Method where
  | GET
  | POST
deriving DecidableEq, Repr

/-- Model of a warp rejection as produced by the filters of api/v2/mod.rs:
either the not-found rejection from warp::reject::not_found, or a body
deserialization rejection from warp::body::json. -/
inductive Rejection where
  | notFound
  | bodyDeserialize
deriving DecidableEq, Repr

/-- The optionally helper from api/v2/mod.rs: unwraps a present value and
rejects with not_found when the value is absent. -/
def optionally {T : Type} (value : Option T) : Except Rejection T :=
  match value with
  | some v => Except.ok v
  | none => Except.error Rejection.notFound

/-- The Transaction type of the v2 API, reconstructed from its use sites (the
types module is not among the sources): either opaque data or a raw extrinsic,
both carried as decoded bytes modelled by a string. -/
inductive Transaction where
  | data (payload : String)
  | extrinsic (payload : String)
deriving DecidableEq, Repr

/-- An opaque handle for the RPC node client passed to the submitter. -/
structure NodeClient where
  clientId : Nat
deriving DecidableEq, Repr

/-- Model of the pair signer built from the configured avail secret key via
From::from in routes. -/
structure PairSigner where
  seed : String
deriving DecidableEq, Repr

/-- The transaction Submitter, reconstructed from its construction in routes in
api/v2/mod.rs (the transactions module is not among the sources): the node
client, the configured app id and the optional pair signer. -/
structure Submitter where
  node_client : NodeClient
  app_id : Nat
  pair_signer : Option PairSigner
deriving DecidableEq, Repr

/-- RuntimeConfig, restricted to the fields routes in api/v2/mod.rs reads
(the types module is not among the sources). -/
structure RuntimeConfig where
  app_id : Option Nat
  avail_secret_key : Option String
deriving DecidableEq, Repr

/-- The submitter construction performed at the top of routes in
api/v2/mod.rs: a submitter exists exactly when the configuration has an
app_id, and it carries the pair signer derived from the configured secret
key. -/
def routesSubmitter (config : RuntimeConfig) (node_client : NodeClient) : Option Submitter :=
  config.app_id.map (fun app_id =>
    Submitter.mk node_client app_id (config.avail_secret_key.map PairSigner.mk))

/-- An incoming HTTP request as seen by the route filters: method, path
segments, and the outcome of JSON body deserialization (none when the body
does not parse as a Transaction). -/
structure Request where
  method : Method
  path : List String
  body : Option Transaction
deriving DecidableEq, Repr

/-- Outcome of running the submit route filter chain on a request: the filter
does not match the request, or it rejects, or the handler is invoked with the
submitter and the deserialized transaction. -/
inductive SubmitRouteResult where
  | noMatch
  | rejected (r : Rejection)
  | handled (s : Submitter) (t : Transaction)
deriving DecidableEq, Repr

/-- The submit_route filter chain from api/v2/mod.rs: path v2/submit, method
POST, then optionally(submitter) — evaluated before the body filter, so an
absent submitter rejects with not_found regardless of the body — then the JSON
body, and finally the submit handler applied to the submitter and the
transaction. -/
def submit_route (submitter : Option Submitter) (req : Request) : SubmitRouteResult :=
  if req.path = ["v2", "submit"] ∧ req.method = Method.POST then
    match optionally submitter with
    | Except.error r => SubmitRouteResult.rejected r
    | Except.ok s =>
      match req.body with
      | none => SubmitRouteResult.rejected Rejection.bodyDeserialize
      | some t => SubmitRouteResult.handled s t
  else SubmitRouteResult.noMatch

/-- The message type published to websocket clients, reconstructed from its
use in publish in api/v2/mod.rs. -/
structure PublishMessage where
  payload : String
deriving DecidableEq, Repr

/-- The topics of the v2 publish loop, from the types module use sites. -/
inductive Topic where
  | HeaderVerified
  | ConfidenceAchieved
  | DataVerified
deriving DecidableEq, Repr

/-- One iteration input of the publish loop: the recv on the broadcast channel
either fails (closed or lagged into an error) or yields a message together
with the per-client delivery outcomes that clients.publish would report for
it (an overall failure, or one result per client). -/
inductive RecvItem (T : Type) where
  | failed
  | received (t : T) (delivery : Except String (List (Except String Unit)))

/-- True exactly for the failed recv outcome. -/
def RecvItem.isFailed {T : Type} : RecvItem T → Bool
  | RecvItem.failed => true
  | RecvItem.received _ _ => false

/-- The publish loop from api/v2/mod.rs, run over an explicit finite stream of
recv outcomes.  It returns the list of messages handed to clients.publish and
whether the loop returned: a recv failure makes it return; a message that
cannot be converted is skipped with continue; delivery outcomes are only
logged, so the loop continues past them; an exhausted stream means the loop is
still waiting (it has not returned). -/
def publish {T : Type} (tryInto : T → Except String PublishMessage) :
    List (RecvItem T) → List PublishMessage × Bool
  | [] => ([], false)
  | RecvItem.failed :: _ => ([], true)
  | RecvItem.received t _delivery :: rest =>
    match tryInto t with
    | Except.error _ => publish tryInto rest
    | Except.ok message =>
      let r := publish tryInto rest
      (message :: r.1, r.2)

/-- A concrete kademlia configuration section used to instantiate theorems
with hypotheses. -/
def kadCfgEx : KademliaCfg where
  max_kad_record_number := 2400000
  max_kad_record_size := 8192
  record_replication_factor := ⟨3, by decide⟩
  max_kad_provided_keys := 1024
  publication_interval := some 43200
  record_replication_interval := some 10800
  connection_idle_timeout := 30
  query_timeout := 60
  query_parallelism := ⟨3, by decide⟩
  caching_max_peers := 1
  disjoint_query_paths := false

/-- A concrete configuration used to instantiate theorems with hypotheses. -/
def cfgEx : LibP2PConfig where
  kademlia := kadCfgEx
  identify := IdentifyCfg.mk "/avail_kad/id/1.0.0" "avail-light-client"
  autonat := AutonatCfg.mk 10 30 5 90 false
  relays := []
  bootstrap_interval := 300
  secret_key := none

/-- A concrete keypair used to instantiate theorems with hypotheses. -/
def kpEx : Keypair := Keypair.mk (List.replicate 32 7)

/-- A 64-character hex string of zeros, a valid imported key text. -/
def zeros64 : String :=
  "0000000000000000000000000000000000000000000000000000000000000000"

/-- A concrete configuration carrying an imported secret key. -/
def cfgKeyEx : LibP2PConfig := { cfgEx with secret_key := some (SecretKey.Key zeros64) }

/-- A concrete configuration carrying a seed phrase. -/
def cfgSeedA : LibP2PConfig := { cfgEx with secret_key := some (SecretKey.Seed "avail seed") }

/-- A second concrete configuration carrying the same seed phrase but differing
elsewhere. -/
def cfgSeedB : LibP2PConfig :=
  { cfgEx with
    secret_key := some (SecretKey.Seed "avail seed")
    relays := ["/dns/relay.example/tcp/37000"]
    bootstrap_interval := 600 }

/-- A concrete configuration whose maximum kad record size is the largest
usize value, so that adding one to it wraps around. -/
def cfgOverflow : LibP2PConfig :=
  { cfgEx with kademlia := { kadCfgEx with max_kad_record_size := usizeSize - 1 } }

/-- A concrete node client handle. -/
def ncEx : NodeClient := NodeClient.mk 0

/-- A concrete runtime configuration with no app id. -/
def rcNoApp : RuntimeConfig := RuntimeConfig.mk none none

/-- A concrete runtime configuration with an app id and a secret key. -/
def rcApp : RuntimeConfig := RuntimeConfig.mk (some 1) (some "stash")

/-- A concrete POST request to the v2 submit route with a parseable body. -/
def reqEx : Request := Request.mk Method.POST ["v2", "submit"] (some (Transaction.data "txn"))

/-- A concrete conversion function used to instantiate the publish-loop
theorem: messages numbered zero fail conversion, all others convert. -/
def tryIntoEx : Nat → Except String PublishMessage :=
  fun n => if n = 0 then Except.error "bad" else Except.ok (PublishMessage.mk "ok")

/-- A concrete recv stream: one convertible message whose delivery fails for a
client, then a recv failure. -/
def pubStreamEx : List (RecvItem Nat) :=
  [RecvItem.received 1 (Except.ok [Except.error "client gone"]), RecvItem.failed]

/-
Theorems.  Helper lemmas come first; each claim is then settled by exactly one
theorem, with a witness theorem where the claim theorem carries hypotheses.
-/

/-- The number of true entries and the number of false entries of a boolean
list add up to its length. -/
theorem countP_self_add_countP_not (l : List Bool) :
    l.countP (fun b => b) + l.countP (fun b => !b) = l.length := by
  induction l with
  | nil => rfl
  | cons hd tl ih =>
    cases hd <;> simp [List.countP_cons] <;> omega

/-- Hex pair decoding yields one byte for every two input characters. -/
theorem hexDecodePairs_length :
    ∀ (l : List Char) (bs : List Nat), hexDecodePairs l = some bs → 2 * bs.length = l.length
  | [], bs, h => by
    simp [hexDecodePairs] at h
    subst h
    rfl
  | [_], _, h => by
    simp [hexDecodePairs] at h
  | hi :: lo :: rest, bs, h => by
    cases hh : hexCharValue hi with
    | none => simp [hexDecodePairs, hh] at h
    | some hv =>
      cases hl : hexCharValue lo with
      | none => simp [hexDecodePairs, hh, hl] at h
      | some lv =>
        cases ht : hexDecodePairs rest with
        | none => simp [hexDecodePairs, hh, hl, ht] at h
        | some tail =>
          have hrec := hexDecodePairs_length rest tail ht
          simp [hexDecodePairs, hh, hl, ht] at h
          subst h
          simp [List.length_cons]
          omega

/-- A successful decode of an imported key text yields exactly 32 bytes. -/
theorem decode_to_slice_32_length (k : String) (bs : List Nat)
    (h : decode_to_slice_32 k = some bs) : bs.length = 32 := by
  unfold decode_to_slice_32 at h
  by_cases hk : k.length = 64
  · rw [if_pos hk] at h
    have := hexDecodePairs_length k.data bs h
    have hdata : k.data.length = 64 := hk
    omega
  · rw [if_neg hk] at h
    exact absurd h (by simp)

/-- C1: for every configuration, init constructs the Kademlia behaviour in
server mode exactly when the is_fat_client flag passed at construction is
true, and leaves it in the client-mode default (never answering routing
queries) when the flag is false. -/
theorem init_kademlia_mode (cfg : LibP2PConfig) (lim t bs : Nat) (fat : Bool) (keys : Keypair) :
    (init cfg lim t bs fat keys).2.swarm.behaviour.kademlia.mode
      = (if fat then Mode.Server else Mode.Client) := by
  cases fat <;> rfl

/-- C2: for every configuration, init builds the in-memory DHT store with
max_records equal to the configured maximum record number,
max_providers_per_key equal to the configured record replication factor, and
max_provided_keys equal to the configured maximum number of provided keys. -/
theorem init_store_caps (cfg : LibP2PConfig) (lim t bs : Nat) (fat : Bool) (keys : Keypair) :
    ((init cfg lim t bs fat keys).2.swarm.behaviour.kademlia.store.config.max_records
      = cfg.kademlia.max_kad_record_number)
    ∧ ((init cfg lim t bs fat keys).2.swarm.behaviour.kademlia.store.config.max_providers_per_key
      = usizeFrom cfg.kademlia.record_replication_factor)
    ∧ ((init cfg lim t bs fat keys).2.swarm.behaviour.kademlia.store.config.max_provided_keys
      = cfg.kademlia.max_kad_provided_keys) := by
  cases fat <;> exact ⟨rfl, rfl, rfl⟩

/-- C3: on the imported-key path, keypair fails exactly when the key text is
not valid hex encoding exactly 32 bytes, and on valid hex of that length it
returns the keypair decoded from those bytes together with its peer id. -/
theorem keypair_imported_key (cfg : LibP2PConfig) (r : Keypair) (k : String)
    (h : cfg.secret_key = some (SecretKey.Key k)) :
    (decode_to_slice_32 k = none →
      keypair cfg r = Except.error "error decoding secret key from config")
    ∧ (∀ bytes, decode_to_slice_32 k = some bytes →
      keypair cfg r = Except.ok
        (Keypair.mk bytes, (PeerId.ofPublic (Keypair.mk bytes).public).toText)) := by
  constructor
  · intro hd
    simp [keypair, h, hd]
  · intro bytes hd
    have hlen : bytes.length = 32 := decode_to_slice_32_length k bytes hd
    simp [keypair, h, hd, ed25519_from_bytes, hlen]

/-- Witness for C3: the all-zero 64-character hex key decodes and yields the
keypair built from 32 zero bytes. -/
theorem keypair_imported_key_witness :
    keypair cfgKeyEx kpEx = Except.ok
      (Keypair.mk (List.replicate 32 0),
        (PeerId.ofPublic (Keypair.mk (List.replicate 32 0)).public).toText) :=
  (keypair_imported_key cfgKeyEx kpEx zeros64 rfl).2 (List.replicate 32 0) (by decide)

/-- C4: keypair is deterministic on the seed path: two calls whose
configurations carry the same seed phrase return equal keypairs and equal
textual peer identifiers, whatever the rest of the configuration and the
randomness. -/
theorem keypair_seed_deterministic (cfg1 cfg2 : LibP2PConfig) (r1 r2 : Keypair) (s : String)
    (h1 : cfg1.secret_key = some (SecretKey.Seed s))
    (h2 : cfg2.secret_key = some (SecretKey.Seed s)) :
    keypair cfg1 r1 = keypair cfg2 r2 := by
  simp [keypair, h1, h2]

/-- Witness for C4: two configurations sharing a seed phrase but differing in
relays, bootstrap interval and randomness produce the same result. -/
theorem keypair_seed_deterministic_witness :
    keypair cfgSeedA kpEx = keypair cfgSeedB (Keypair.mk (List.replicate 32 9)) :=
  keypair_seed_deterministic cfgSeedA cfgSeedB kpEx (Keypair.mk (List.replicate 32 9))
    "avail seed" rfl rfl

/-- C5: for every configuration, init configures the Kademlia DHT with the
configured publication and replication intervals, replication factor,
connection idle timeout, query timeout and parallelism, enables result
caching with the configured maximum peers, and enables duplicate-record
filtering for both records and provider records. -/
theorem init_kad_config (cfg : LibP2PConfig) (lim t bs : Nat) (fat : Bool) (keys : Keypair) :
    ((init cfg lim t bs fat keys).2.swarm.behaviour.kademlia.config.publication_interval
      = cfg.kademlia.publication_interval)
    ∧ ((init cfg lim t bs fat keys).2.swarm.behaviour.kademlia.config.replication_interval
      = cfg.kademlia.record_replication_interval)
    ∧ ((init cfg lim t bs fat keys).2.swarm.behaviour.kademlia.config.replication_factor
      = cfg.kademlia.record_replication_factor)
    ∧ ((init cfg lim t bs fat keys).2.swarm.behaviour.kademlia.config.connection_idle_timeout
      = cfg.kademlia.connection_idle_timeout)
    ∧ ((init cfg lim t bs fat keys).2.swarm.behaviour.kademlia.config.query_timeout
      = cfg.kademlia.query_timeout)
    ∧ ((init cfg lim t bs fat keys).2.swarm.behaviour.kademlia.config.parallelism
      = cfg.kademlia.query_parallelism)
    ∧ ((init cfg lim t bs fat keys).2.swarm.behaviour.kademlia.config.caching
      = KademliaCaching.Enabled cfg.kademlia.caching_max_peers)
    ∧ ((init cfg lim t bs fat keys).2.swarm.behaviour.kademlia.config.record_filtering
      = KademliaStoreInserts.FilterBoth) := by
  cases fat <;> exact ⟨rfl, rfl, rfl, rfl, rfl, rfl, rfl, rfl⟩

/-- C6: init connects the Client and the Event Loop by one command channel of
capacity 10000: the Client holds the sender and the Event Loop the receiver
of that same channel, and a send onto a full queue does not complete, so the
sender must wait. -/
theorem init_command_channel {α : Type} (cfg : LibP2PConfig) (lim t bs : Nat) (fat : Bool)
    (keys : Keypair) (queue : List α) (c : α) (hfull : queue.length = 10000) :
    ((init cfg lim t bs fat keys).1.command_sender.chan
      = (init cfg lim t bs fat keys).2.command_receiver.chan)
    ∧ ((init cfg lim t bs fat keys).1.command_sender.chan.capacity = 10000)
    ∧ ((init cfg lim t bs fat keys).1.command_sender.chan.trySend queue c = none) := by
  have hcap : (init cfg lim t bs fat keys).1.command_sender.chan.capacity = 10000 := by
    cases fat <;> rfl
  refine ⟨?_, hcap, ?_⟩
  · cases fat <;> rfl
  · unfold BoundedChannel.trySend
    rw [hcap, hfull, if_neg (Nat.lt_irrefl 10000)]

/-- Witness for C6: at a concrete configuration, with a queue already holding
10000 items, the sender and receiver share the channel and the send does not
complete. -/
theorem init_command_channel_witness :
    ((init cfgEx 10 3600 100 false kpEx).1.command_sender.chan
      = (init cfgEx 10 3600 100 false kpEx).2.command_receiver.chan)
    ∧ ((init cfgEx 10 3600 100 false kpEx).1.command_sender.chan.capacity = 10000)
    ∧ ((init cfgEx 10 3600 100 false kpEx).1.command_sender.chan.trySend
        (List.replicate 10000 (0 : Nat)) 0 = none) :=
  init_command_channel cfgEx 10 3600 100 false kpEx (List.replicate 10000 0) 0
    (List.length_replicate 10000 0)

/-- C7: a batch put of N records reports DHTPutSuccess.Batch n where n counts
exactly the confirmed records (if K of N fail, n equals N minus K), a
single-record put reports DHTPutSuccess.Single, and these are the only
success shapes. -/
theorem dht_put_success_accounting (outcomes : List Bool) (N K : Nat)
    (hN : outcomes.length = N) (hK : outcomes.countP (fun b => !b) = K) :
    batchPutReport outcomes = DHTPutSuccess.Batch (N - K)
    ∧ singlePutReport = DHTPutSuccess.Single
    ∧ (∀ s : DHTPutSuccess, (∃ n, s = DHTPutSuccess.Batch n) ∨ s = DHTPutSuccess.Single) := by
  refine ⟨?_, rfl, ?_⟩
  · have hsum := countP_self_add_countP_not outcomes
    have hcnt : outcomes.countP (fun b => b) = N - K := by omega
    simp [batchPutReport, hcnt]
  · intro s
    cases s with
    | Batch n => exact Or.inl ⟨n, rfl⟩
    | Single => exact Or.inr rfl

/-- Witness for C7: a batch of four outcomes with one failure reports a batch
count of three. -/
theorem dht_put_success_accounting_witness :
    batchPutReport [true, false, true, true] = DHTPutSuccess.Batch (4 - 1)
    ∧ singlePutReport = DHTPutSuccess.Single
    ∧ (∀ s : DHTPutSuccess, (∃ n, s = DHTPutSuccess.Batch n) ∨ s = DHTPutSuccess.Single) :=
  dht_put_success_accounting [true, false, true, true] 4 1 rfl (by decide)

/-- Counterexample for C8: with the configured maximum record size equal to
the largest usize value, the machine addition wraps, so the store cap
max_value_bytes becomes 0 rather than one more than the configured size, and
a value of exactly the configured size does not fall within the value-size
limit. -/
theorem store_value_cap_overflow_counterexample :
    ((init cfgOverflow 10 3600 100 false kpEx).2.swarm.behaviour.kademlia.store.config.max_value_bytes
      = 0)
    ∧ (valueSizeOk
        (init cfgOverflow 10 3600 100 false kpEx).2.swarm.behaviour.kademlia.store.config
        cfgOverflow.kademlia.max_kad_record_size = false) := by
  constructor
  · decide
  · decide

/-- C8 amended: provided the configured maximum record size is small enough
that adding one does not overflow usize, init sets max_value_bytes to exactly
one more than the configured maximum record size, and a record value of
exactly that size falls within the store value-size limit. -/
theorem store_value_cap_amended (cfg : LibP2PConfig) (lim t bs : Nat) (fat : Bool)
    (keys : Keypair) (h : cfg.kademlia.max_kad_record_size + 1 < usizeSize) :
    ((init cfg lim t bs fat keys).2.swarm.behaviour.kademlia.store.config.max_value_bytes
      = cfg.kademlia.max_kad_record_size + 1)
    ∧ (valueSizeOk (init cfg lim t bs fat keys).2.swarm.behaviour.kademlia.store.config
        cfg.kademlia.max_kad_record_size = true) := by
  have hmod : (cfg.kademlia.max_kad_record_size + 1) % usizeSize
      = cfg.kademlia.max_kad_record_size + 1 := Nat.mod_eq_of_lt h
  have hmv : (init cfg lim t bs fat keys).2.swarm.behaviour.kademlia.store.config.max_value_bytes
      = cfg.kademlia.max_kad_record_size + 1 := by
    cases fat <;> exact hmod
  refine ⟨hmv, ?_⟩
  simp [valueSizeOk, hmv, Nat.le_succ]

/-- Witness for C8 amended: at a concrete configuration with record size 8192
the cap is 8193 and a 8192-byte value falls within the limit. -/
theorem store_value_cap_amended_witness :
    ((init cfgEx 10 3600 100 false kpEx).2.swarm.behaviour.kademlia.store.config.max_value_bytes
      = cfgEx.kademlia.max_kad_record_size + 1)
    ∧ (valueSizeOk (init cfgEx 10 3600 100 false kpEx).2.swarm.behaviour.kademlia.store.config
        cfgEx.kademlia.max_kad_record_size = true) :=
  store_value_cap_amended cfgEx 10 3600 100 false kpEx (by decide)

/-- C9: on a POST request to the v2 submit path, an absent submitter (which
is exactly the case of a configuration without app_id) makes the route reject
with not_found, before body handling; with a submitter present and a
parseable body, the handler receives the submitter and the request body. -/
theorem submit_route_submitter_gate (config : RuntimeConfig) (nc : NodeClient) (req : Request)
    (hp : req.path = ["v2", "submit"]) (hm : req.method = Method.POST) :
    (config.app_id = none →
      submit_route (routesSubmitter config nc) req
        = SubmitRouteResult.rejected Rejection.notFound)
    ∧ (∀ s tx, routesSubmitter config nc = some s → req.body = some tx →
      submit_route (routesSubmitter config nc) req = SubmitRouteResult.handled s tx) := by
  constructor
  · intro ha
    simp [submit_route, hp, hm, routesSubmitter, ha, optionally]
  · intro s tx hs hb
    simp [submit_route, hp, hm, hs, hb, optionally]

/-- Witness for C9: a concrete POST submit request is rejected as not-found
when the runtime configuration has no app id, and handled with the submitter
and body when it has one. -/
theorem submit_route_submitter_gate_witness :
    (submit_route (routesSubmitter rcNoApp ncEx) reqEx
      = SubmitRouteResult.rejected Rejection.notFound)
    ∧ (submit_route (routesSubmitter rcApp ncEx) reqEx
      = SubmitRouteResult.handled (Submitter.mk ncEx 1 (some (PairSigner.mk "stash")))
        (Transaction.data "txn")) :=
  ⟨(submit_route_submitter_gate rcNoApp ncEx reqEx rfl rfl).1 rfl,
   (submit_route_submitter_gate rcApp ncEx reqEx rfl rfl).2
     (Submitter.mk ncEx 1 (some (PairSigner.mk "stash"))) (Transaction.data "txn") rfl rfl⟩

/-- C10: the publish loop returns exactly when its recv stream reaches a
failure; a received message that cannot be converted is skipped and the rest
of the stream is still processed; a convertible message is handed on and the
loop continues regardless of the per-client delivery outcomes. -/
theorem publish_loop_behaviour {T : Type} (tryInto : T → Except String PublishMessage)
    (l : List (RecvItem T)) (t1 t2 : T)
    (d1 d2 : Except String (List (Except String Unit)))
    (rest : List (RecvItem T)) (e : String) (m : PublishMessage)
    (hbad : tryInto t1 = Except.error e) (hgood : tryInto t2 = Except.ok m) :
    ((publish tryInto l).2 = l.any RecvItem.isFailed)
    ∧ (publish tryInto (RecvItem.received t1 d1 :: rest) = publish tryInto rest)
    ∧ (publish tryInto (RecvItem.received t2 d2 :: rest)
      = (m :: (publish tryInto rest).1, (publish tryInto rest).2)) := by
  refine ⟨?_, ?_, ?_⟩
  · induction l with
    | nil => rfl
    | cons hd tl ih =>
      cases hd with
      | failed => simp [publish, RecvItem.isFailed]
      | received t d =>
        cases htry : tryInto t <;> simp [publish, htry, RecvItem.isFailed, ih]
  · simp [publish, hbad]
  · simp [publish, hgood]

/-- Witness for C10: on a concrete stream the loop returns because of the
trailing recv failure, a non-convertible message is skipped, and a
convertible message with a failing client delivery is handed on. -/
theorem publish_loop_behaviour_witness :
    ((publish tryIntoEx pubStreamEx).2 = pubStreamEx.any RecvItem.isFailed)
    ∧ (publish tryIntoEx (RecvItem.received 0 (Except.ok []) :: [])
      = publish tryIntoEx [])
    ∧ (publish tryIntoEx (RecvItem.received 2 (Except.error "down") :: [])
      = (PublishMessage.mk "ok" :: (publish tryIntoEx []).1, (publish tryIntoEx []).2)) :=
  publish_loop_behaviour tryIntoEx pubStreamEx 0 2 (Except.ok []) (Except.error "down") []
    "bad" (PublishMessage.mk "ok") rfl rfl

end AvailLight
